import Mathlib

/-!
Verification development for the url-ping uptime monitor (src/main.py).

The development shallowly embeds the program's data model and operations:

* the durable JSON configuration file and the functions `load_config`,
  `get_urls_and_interval`, together with Python's `int()` / `list()`
  coercions that those functions apply to loaded JSON values;
* the typed command layer (`add_url`, `remove_url`, `set_interval`);
* the per-endpoint health-state table `URL_STATES` and the polling cycle
  `async_ping_cycle` with its debounced transition logic;
* the probe classifier `check_health`;
* the notification gate `notify_status_change`;
* a two-thread interleaving machine for the add-command write path.

Python `None`/`True`/`False` stored in the `is_up` field is modelled as
`Option Bool`; raised Python exceptions are modelled with `Except`.
-/

namespace UrlPing

/-- JSON values as produced by Python's `json.load`.  Numbers are modelled
as integers (the configuration only ever stores integer numbers). -/
inductive Json where
  | null
  | bool (b : Bool)
  | num (n : Int)
  | str (s : String)
  | arr (xs : List Json)
  | obj (fields : List (String × Json))

/-- A Python dict with string keys, in insertion order, as used for the
configuration record. -/
abbrev JDict := List (String × Json)

/-- Python exceptions that the embedded fragments can raise. -/
inductive PyErr where
  | valueError
  | typeError
  | keyError
deriving DecidableEq

/-- States of the durable backing store `config.json`: the file may be
absent, unreadable (opening or reading raises), hold text that is not
JSON (`json.load` raises), or hold a parsed JSON value. -/
inductive Store where
  | missing
  | unreadable
  | malformed
  | jsonVal (v : Json)

/-- `DEFAULT_INTERVAL` from src/main.py line 19. -/
def DEFAULT_INTERVAL : Int := 300

/-- `MIN_INTERVAL` from src/main.py line 20. -/
def MIN_INTERVAL : Int := 30

/-- The default configuration dict produced by `load_config` when the
store is missing or unrecoverable: `{"urls": [], "interval": 300}`. -/
def default_cfg_json : JDict := [ ("urls", Json.arr []), ("interval", Json.num DEFAULT_INTERVAL) ]

/-- First-match lookup in a Python dict. -/
def jdictFind : JDict → String → Option Json
  | [], _ => none
  | (k, v) :: rest, key => if k = key then some v else jdictFind rest key

/-- Python `dict.setdefault`: insert at the end when the key is absent,
otherwise leave the dict unchanged. -/
def jdictSetdefault (d : JDict) (k : String) (v : Json) : JDict :=
  match jdictFind d k with
  | some _ => d
  | none => d ++ [(k, v)]

/-- Python `d[k]`: raises `KeyError` when the key is absent. -/
def jdictGetItem (d : JDict) (k : String) : Except PyErr Json :=
  match jdictFind d k with
  | some v => Except.ok v
  | none => Except.error PyErr.keyError

/-- Parse a decimal digit run to a number; `none` when empty or when a
non-digit occurs. -/
def parseDigits (cs : List Char) : Option Nat :=
  if cs = [] then none
  else if cs.all Char.isDigit then
    some (cs.foldl (fun a c => a * 10 + (c.toNat - 48)) 0)
  else none

/-- Whitespace characters removed by Python's `str.strip`. -/
def isPySpace (c : Char) : Bool :=
  c = ' ' ∨ c = '\t' ∨ c = '\n' ∨ c = '\r' ∨ c = '\x0b' ∨ c = '\x0c'

/-- Python `str.strip()` on the character list of a string. -/
def pyStrip (cs : List Char) : List Char :=
  ((cs.dropWhile isPySpace).reverse.dropWhile isPySpace).reverse

/-- Python `int(s)` on a string: strip surrounding whitespace, allow one
optional sign, then require a non-empty digit run; otherwise `ValueError`
(modelled as `none`). -/
def pyIntOfString (s : String) : Option Int :=
  match pyStrip s.data with
  | [] => none
  | c :: rest =>
    if c = '+' then (parseDigits rest).map Int.ofNat
    else if c = '-' then (parseDigits rest).map (fun n => -(n : Int))
    else (parseDigits (c :: rest)).map Int.ofNat

/-- Python `int(x)` on a loaded JSON value (src/main.py line 65 applies it
to `cfg["interval"]`): numbers pass through, booleans coerce to 0/1,
numeric strings are parsed, everything else raises. -/
def pyInt : Json → Except PyErr Int
  | Json.num n => Except.ok n
  | Json.bool b => Except.ok (if b then 1 else 0)
  | Json.str s =>
    match pyIntOfString s with
    | some n => Except.ok n
    | none => Except.error PyErr.valueError
  | _ => Except.error PyErr.typeError

/-- Python `list(x)` on a loaded JSON value (src/main.py line 65 applies
it to `cfg["urls"]`): lists copy, strings explode into characters, dicts
yield their keys, and non-iterables raise `TypeError`. -/
def pyList : Json → Except PyErr (List Json)
  | Json.arr xs => Except.ok xs
  | Json.str s => Except.ok (s.data.map (fun c => Json.str (String.mk [c])))
  | Json.obj d => Except.ok (d.map (fun p => Json.str p.1))
  | _ => Except.error PyErr.typeError

/-- Embeds `load_config` (src/main.py lines 38-51).  A missing file yields
the default dict; an unreadable or non-JSON file makes the `try` block
raise, which the `except` branch (line 49) turns into the default dict; a
JSON value that is not a dict yields the default dict (line 44); a dict
gets `urls` and `interval` filled in by `setdefault` (lines 46-47).  Note
the loaded `interval` value is returned exactly as stored, with no range
validation. -/
def load_config : Store → JDict
  | Store.missing => default_cfg_json
  | Store.unreadable => default_cfg_json
  | Store.malformed => default_cfg_json
  | Store.jsonVal v =>
    match v with
    | Json.obj d =>
      jdictSetdefault (jdictSetdefault d "urls" (Json.arr []))
        "interval" (Json.num DEFAULT_INTERVAL)
    | _ => default_cfg_json

/-- Embeds `get_urls_and_interval` (src/main.py lines 62-65): load the
config under the lock, then return `(list(cfg["urls"]), int(cfg["interval"]))`.
The `list()` and `int()` coercions are not guarded by any `try`, so they
can raise (modelled by the `Except` error branch). -/
def get_urls_and_interval (s : Store) : Except PyErr (List Json × Int) := do
  let cfg := load_config s
  let uj ← jdictGetItem cfg "urls"
  let us ← pyList uj
  let ij ← jdictGetItem cfg "interval"
  let i ← pyInt ij
  return (us, i)

/-- Stores whose content `load_config` cannot use at all: absent file,
unreadable file, non-JSON text, or JSON whose top level is not a dict. -/
def Store.isCorruptOrMissing : Store → Bool
  | Store.missing => true
  | Store.unreadable => true
  | Store.malformed => true
  | Store.jsonVal (Json.obj _) => false
  | Store.jsonVal _ => true

/-- The sleep duration of one iteration of `ping_loop`
(src/main.py line 161): `time.sleep(max(MIN_INTERVAL, interval))`. -/
def sleepSeconds (interval : Int) : Int := max MIN_INTERVAL interval

/-! ### Typed configuration and the command layer -/

/-- The configuration record as the command handlers see it after
`get_urls_and_interval`: a URL list and an interval. -/
structure Config where
  urls : List String
  interval : Int
deriving DecidableEq

/-- The configuration produced on first run: no URLs, interval 300. -/
def default_config : Config := { urls := [], interval := DEFAULT_INTERVAL }

/-- Replies the command handlers send back. -/
inductive Reply where
  | added (url : String)
  | duplicate
  | removed (url : String)
  | notFound
  | intervalSet (n : Int)
  | intervalTooLow
  | notAnInteger
deriving DecidableEq

/-- Embeds the sequential effect of the `add_url` handler
(src/main.py lines 196-210): read the list, reject a member URL with the
"already in list" reply, otherwise append and persist. -/
def add_url (cfg : Config) (url : String) : Config × Reply :=
  if url ∈ cfg.urls then (cfg, Reply.duplicate)
  else ({ cfg with urls := cfg.urls ++ [url] }, Reply.added url)

/-- Embeds the sequential effect of the `remove_url` handler
(src/main.py lines 213-227): reject a non-member URL with the "not found"
reply, otherwise delete its first occurrence and persist. -/
def remove_url (cfg : Config) (url : String) : Config × Reply :=
  if url ∈ cfg.urls then ({ cfg with urls := cfg.urls.erase url }, Reply.removed url)
  else (cfg, Reply.notFound)

/-- Embeds the `set_interval` handler (src/main.py lines 260-277):
`int(arg)` failing gives the "must be an integer" reply; a parsed value
below `MIN_INTERVAL` gives the "minimum interval" reply with no mutation;
otherwise the interval is persisted and confirmed. -/
def set_interval (cfg : Config) (arg : String) : Config × Reply :=
  match pyIntOfString arg with
  | none => (cfg, Reply.notAnInteger)
  | some n =>
    if n < MIN_INTERVAL then (cfg, Reply.intervalTooLow)
    else ({ cfg with interval := n }, Reply.intervalSet n)

/-- Endpoint-list mutation commands. -/
inductive Cmd where
  | add (url : String)
  | remove (url : String)

/-- State effect of one command on the stored configuration. -/
def applyCmd (cfg : Config) : Cmd → Config
  | Cmd.add u => (add_url cfg u).1
  | Cmd.remove u => (remove_url cfg u).1

/-- Run a command sequence from the default configuration. -/
def applyCmds (cmds : List Cmd) : Config :=
  cmds.foldl applyCmd default_config

/-! ### Health-state table and the polling cycle -/

/-- One entry of `URL_STATES` (src/main.py line 34): Python's
`{"is_up": None | True | False, "fail_count": int}`. -/
structure UrlState where
  is_up : Option Bool
  fail_count : Nat
deriving DecidableEq

/-- The fresh entry `{"is_up": None, "fail_count": 0}` used by
`setdefault` (src/main.py lines 128 and 132). -/
def freshState : UrlState := { is_up := none, fail_count := 0 }

/-- `URL_STATES` as a dict in insertion order. -/
abbrev Table := List (String × UrlState)

/-- First-match lookup in the table. -/
def Table.find? : Table → String → Option UrlState
  | [], _ => none
  | (k, v) :: rest, key => if k = key then some v else Table.find? rest key

/-- Python `dict.setdefault` on the table: append at the end when absent. -/
def Table.setdefault (t : Table) (k : String) (d : UrlState) : Table :=
  match Table.find? t k with
  | some _ => t
  | none => t ++ [(k, d)]

/-- Python dict assignment `t[k] = v`: overwrite in place, append when
absent. -/
def Table.set : Table → String → UrlState → Table
  | [], k, v => [(k, v)]
  | (k', v') :: rest, k, v =>
    if k' = k then (k, v) :: rest else (k', v') :: Table.set rest k v

/-- A notification emitted on a confirmed transition. -/
inductive Notif where
  | up (url : String)
  | down (url : String)
deriving DecidableEq

/-- The URL a notification is about. -/
def Notif.url : Notif → String
  | Notif.up u => u
  | Notif.down u => u

/-- Whether a notification announces recovery. -/
def Notif.isUp : Notif → Bool
  | Notif.up _ => true
  | Notif.down _ => false

/-- Embeds the per-probe transition (src/main.py lines 133-147) for one
endpoint: on success reset the counter, set the status up, and notify
only when the previous status was `False`; on failure increment the
counter and, when it has reached 3 and the previous status was `True` or
`None`, flip to down and notify. -/
def applyProbe (url : String) (is_up : Bool) (st : UrlState) : UrlState × List Notif :=
  let prev := st.is_up
  if is_up then
    if prev = some false then
      ({ is_up := some true, fail_count := 0 }, [Notif.up url])
    else
      ({ is_up := some true, fail_count := 0 }, [])
  else
    let fc := st.fail_count + 1
    if 3 ≤ fc ∧ (prev = some true ∨ prev = none) then
      ({ is_up := some false, fail_count := fc }, [Notif.down url])
    else
      ({ st with fail_count := fc }, [])

/-- Feed a sequence of probe results through `applyProbe`, collecting the
notifications in order. -/
def runProbes (url : String) (results : List Bool) (st : UrlState) : UrlState × List Notif :=
  results.foldl (fun acc b =>
    ((applyProbe url b acc.1).1, acc.2 ++ (applyProbe url b acc.1).2)) (st, [])

/-- The first loop of `async_ping_cycle` (src/main.py lines 127-128):
ensure every configured URL has a table entry before probing starts. -/
def ensurePhase (urls : List String) (t : Table) : Table :=
  urls.foldl (fun acc u => Table.setdefault acc u freshState) t

/-- One iteration of the probe loop (src/main.py lines 130-147): call
`check_health`, re-`setdefault` the entry, read it, apply the transition,
and write the updated entry back into the table. -/
def probeOne (health : String → Bool) (u : String) (t : Table) : Table × List Notif :=
  let t1 := Table.setdefault t u freshState
  let st := (Table.find? t1 u).getD freshState
  let step := applyProbe u (health u) st
  (Table.set t1 u step.1, step.2)

/-- The probe loop of `async_ping_cycle` (src/main.py lines 130-147):
probe each configured URL in order, apply the transition to its table
entry, and collect the notifications as they are emitted. -/
def probePhase (health : String → Bool) : List String → Table → Table × List Notif
  | [], t => (t, [])
  | u :: rest, t =>
    ((probePhase health rest (probeOne health u t).1).1,
     (probeOne health u t).2 ++ (probePhase health rest (probeOne health u t).1).2)

/-- The final loop of `async_ping_cycle` (src/main.py lines 149-151):
delete the entries whose URL is no longer configured. -/
def prunePhase (urls : List String) : Table → Table
  | [] => []
  | (k, v) :: rest =>
    if k ∈ urls then (k, v) :: prunePhase urls rest else prunePhase urls rest

/-- Embeds one run of `async_ping_cycle` (src/main.py lines 120-151) for
a fixed probe outcome per URL: lazily create entries, probe every URL,
then prune stale entries.  Returns the table after the cycle and the
notifications emitted during it. -/
def async_ping_cycle (health : String → Bool) (urls : List String) (t : Table) :
    Table × List Notif :=
  (prunePhase urls (probePhase health urls (ensurePhase urls t)).1,
   (probePhase health urls (ensurePhase urls t)).2)

/-- Run several consecutive cycles, one probe outcome per cycle for every
URL, returning the notification batch of each cycle. -/
def runCycles (urls : List String) : List Bool → Table → List (List Notif)
  | [], _ => []
  | b :: rest, t =>
    (async_ping_cycle (fun _ => b) urls t).2 ::
      runCycles urls rest (async_ping_cycle (fun _ => b) urls t).1

/-! ### Notification gate -/

/-- Embeds `notify_status_change` (src/main.py lines 109-116), returning
the list of messages actually handed to the sink: when `ALLOWED_CHAT_ID`
is unset (or empty) the function returns immediately and nothing is sent;
otherwise exactly one formatted message is sent. -/
def notify_status_change (allowedChatId : Option String) (n : Notif) : List String :=
  if allowedChatId.getD "" = "" then []
  else [(if n.isUp then "✅ UP: " else "❌ DOWN: ") ++ n.url]

/-- One cycle together with the messages its notifications actually send
under a given `ALLOWED_CHAT_ID`. -/
def cycleSends (allowedChatId : Option String) (health : String → Bool)
    (urls : List String) (t : Table) : Table × List String :=
  ((async_ping_cycle health urls t).1,
   (async_ping_cycle health urls t).2.foldl
     (fun acc n => acc ++ notify_status_change allowedChatId n) [])

/-! ### Probe classification -/

/-- `GOOD_VALUES` from src/main.py line 31. -/
def GOOD_VALUES : List String := [ "ok", "healthy", "up" ]

/-- Outcome of `requests.get(url, timeout=10)`: a transport-level failure
(timeout, connection refused, DNS failure — the `except` at line 83) or a
completed response with a status code and a body. -/
inductive ProbeResult where
  | failure
  | response (status : Int) (body : String)

/-- Python `str(x)` for the JSON value read from a body's `status` field.
Containers render to bracketed text; no container rendering is ever one
of the plain words in `GOOD_VALUES`, which is all `check_health` uses. -/
def pyStr : Json → String
  | Json.null => "None"
  | Json.bool b => if b then "True" else "False"
  | Json.num n => toString n
  | Json.str s => s
  | Json.arr _ => "[...]"
  | Json.obj _ => "\x7b...\x7d"

/-- Embeds `check_health` (src/main.py lines 80-105), with `json.loads`
passed in as the external parser capability (`none` models the parse
raising).  A transport failure or a status outside [200, 400) returns
`False`; then the trimmed body is compared against `GOOD_VALUES`, the
body is tentatively parsed as JSON and its `status` field compared
against `GOOD_VALUES`, and every one of those paths ends in `True`
(line 105). -/
def check_health (loads : String → Option Json) : ProbeResult → Bool
  | ProbeResult.failure => false
  | ProbeResult.response status body =>
    if ¬ (200 ≤ status ∧ status < 400) then false
    else
      let text := body.trim
      if text ≠ "" ∧ text.toLower ∈ GOOD_VALUES then true
      else
        match loads text with
        | some (Json.obj d) =>
          let val := (pyStr ((jdictFind d "status").getD (Json.str ""))).toLower
          if val ∈ GOOD_VALUES then true else true
        | _ => true

/-! ### Two concurrent add commands over the shared configuration -/

/-- Program counter of one in-flight `add_url` handler.  `start` is the
read step (`get_urls_and_interval`, one lock acquisition); `commit` holds
the locally computed URL list awaiting `update_config` (a second,
separate lock acquisition); `done b` records whether the handler
committed a write. -/
inductive AddPc where
  | start
  | commit (urls : List String)
  | done (committed : Bool)
deriving DecidableEq

/-- One in-flight `add_url` handler: its argument and program counter. -/
structure AddThread where
  url : String
  pc : AddPc
deriving DecidableEq

/-- A system of one shared configuration and two add handlers. -/
structure Sys where
  cfg : Config
  t0 : AddThread
  t1 : AddThread
deriving DecidableEq

/-- One atomic step of an add handler against the shared configuration
(src/main.py lines 203-208).  The read step takes the membership check
with it (the check only touches handler-local data); the commit step is
`update_config(urls=urls)` (src/main.py lines 68-76), which atomically
overwrites the stored URL list with the handler-local one. -/
def addStep (cfg : Config) (th : AddThread) : Config × AddThread :=
  match th.pc with
  | AddPc.start =>
    if th.url ∈ cfg.urls then (cfg, { th with pc := AddPc.done false })
    else (cfg, { th with pc := AddPc.commit (cfg.urls ++ [th.url]) })
  | AddPc.commit us => ({ cfg with urls := us }, { th with pc := AddPc.done true })
  | AddPc.done _ => (cfg, th)

/-- Let the scheduled thread (`false` = first, `true` = second) take one
atomic step. -/
def sysStep (s : Sys) (who : Bool) : Sys :=
  if who then
    { s with cfg := (addStep s.cfg s.t1).1, t1 := (addStep s.cfg s.t1).2 }
  else
    { s with cfg := (addStep s.cfg s.t0).1, t0 := (addStep s.cfg s.t0).2 }

/-- Run a schedule (a list of thread choices) from a system state. -/
def runSched (s : Sys) : List Bool → Sys
  | [] => s
  | b :: rest => runSched (sysStep s b) rest

/-- Two add handlers for distinct URLs poised over the default
configuration. -/
def initSys (u0 u1 : String) : Sys :=
  { cfg := default_config
    t0 := { url := u0, pc := AddPc.start }
    t1 := { url := u1, pc := AddPc.start } }

/-! ### Concrete stores used in the scenarios -/

/-- A well-formed JSON dict whose stored interval (5) is below
`MIN_INTERVAL`. -/
def lowIntervalStore : Store :=
  Store.jsonVal (Json.obj [ ("urls", Json.arr []), ("interval", Json.num 5) ])

/-- A well-formed JSON dict whose `interval` field holds a non-numeric
string. -/
def badTypedStore : Store :=
  Store.jsonVal (Json.obj [ ("urls", Json.arr []), ("interval", Json.str "abc") ])

/-! ## Helper lemmas -/

/-- `load_config` substitutes the default dict whenever the store is
missing, unreadable, not JSON, or not a JSON dict. -/
theorem load_config_of_corrupt (s : Store) (h : Store.isCorruptOrMissing s = true) :
    load_config s = default_cfg_json := by
  cases s with
  | missing => rfl
  | unreadable => rfl
  | malformed => rfl
  | jsonVal v => cases v <;> simp_all [Store.isCorruptOrMissing, load_config]

/-- Each configuration command preserves `Nodup` of the URL list. -/
theorem urls_nodup_applyCmd (cfg : Config) (h : cfg.urls.Nodup) (c : Cmd) :
    ((applyCmd cfg c).urls).Nodup := by
  cases c with
  | add u =>
    simp only [applyCmd, add_url]
    by_cases hm : u ∈ cfg.urls
    · simpa [hm]
    · simp [hm, List.nodup_append, h]
  | remove u =>
    simp only [applyCmd, remove_url]
    by_cases hm : u ∈ cfg.urls
    · simpa [hm] using h.erase u
    · simpa [hm]

/-- Folding commands over a configuration with a duplicate-free URL list
keeps the list duplicate-free. -/
theorem urls_nodup_foldl :
    ∀ (cmds : List Cmd) (cfg : Config), cfg.urls.Nodup →
      ((cmds.foldl applyCmd cfg).urls).Nodup
  | [], _, h => h
  | c :: rest, cfg, h => urls_nodup_foldl rest _ (urls_nodup_applyCmd cfg h c)

/-- Lookup in an appended table prefers the left part when it hits. -/
theorem Table.find?_append_left {t : Table} {u : String}
    (h : (Table.find? t u).isSome) (t' : Table) :
    Table.find? (t ++ t') u = Table.find? t u := by
  induction t with
  | nil => simp [Table.find?] at h
  | cons p rest ih =>
    obtain ⟨k, v⟩ := p
    by_cases hk : k = u
    · simp [Table.find?, hk]
    · simp only [Table.find?, if_neg hk] at h
      simp only [List.cons_append, Table.find?, if_neg hk]
      exact ih h

/-- Lookup in an appended table falls through when the left part misses. -/
theorem Table.find?_append_right {t : Table} {u : String}
    (h : Table.find? t u = none) (t' : Table) :
    Table.find? (t ++ t') u = Table.find? t' u := by
  induction t with
  | nil => rfl
  | cons p rest ih =>
    obtain ⟨k, v⟩ := p
    by_cases hk : k = u
    · simp [Table.find?, hk] at h
    · simp only [Table.find?, if_neg hk] at h
      simp only [List.cons_append, Table.find?, if_neg hk]
      exact ih h

/-- `setdefault` never deletes an existing entry. -/
theorem Table.find?_setdefault_isSome {t : Table} {u : String}
    (h : (Table.find? t u).isSome) (k : String) (d : UrlState) :
    (Table.find? (Table.setdefault t k d) u).isSome := by
  unfold Table.setdefault
  split
  · exact h
  · rw [Table.find?_append_left h]; exact h

/-- After `setdefault t k d` the key `k` is present. -/
theorem Table.find?_setdefault_self (t : Table) (k : String) (d : UrlState) :
    (Table.find? (Table.setdefault t k d) k).isSome := by
  unfold Table.setdefault
  split
  · simp_all
  · next heq =>
    rw [Table.find?_append_right heq]
    simp [Table.find?]

/-- The ensure loop never deletes an existing entry. -/
theorem find?_ensure_isSome (urls : List String) :
    ∀ {t : Table} {u : String}, (Table.find? t u).isSome →
      (Table.find? (ensurePhase urls t) u).isSome := by
  induction urls with
  | nil => intro t u h; simpa [ensurePhase] using h
  | cons a rest ih =>
    intro t u h
    simp only [ensurePhase, List.foldl_cons] at *
    exact ih (Table.find?_setdefault_isSome h a freshState)

/-- After the ensure loop every configured URL has an entry. -/
theorem find?_ensure_mem (urls : List String) :
    ∀ {t : Table} {u : String}, u ∈ urls →
      (Table.find? (ensurePhase urls t) u).isSome := by
  induction urls with
  | nil => intro t u h; simp at h
  | cons a rest ih =>
    intro t u h
    simp only [ensurePhase, List.foldl_cons] at *
    rcases List.mem_cons.mp h with rfl | h
    · exact find?_ensure_isSome rest (Table.find?_setdefault_self t u freshState)
    · exact ih h

/-- After the prune loop no entry remains for a URL outside the
configured list. -/
theorem find?_prune_of_not_mem {urls : List String} {u : String}
    (h : u ∉ urls) (t : Table) :
    Table.find? (prunePhase urls t) u = none := by
  induction t with
  | nil => rfl
  | cons p rest ih =>
    obtain ⟨k, v⟩ := p
    simp only [prunePhase]
    by_cases hk : k ∈ urls
    · have hne : k ≠ u := fun he => h (he ▸ hk)
      rw [if_pos hk]
      simp only [Table.find?, if_neg hne]
      exact ih
    · rw [if_neg hk]; exact ih

/-- Every notification produced by one probe iteration carries the probed
URL. -/
theorem mem_applyProbe_url {u : String} {b : Bool} {s : UrlState} {n : Notif}
    (h : n ∈ (applyProbe u b s).2) : Notif.url n = u := by
  simp only [applyProbe] at h
  split at h
  · split at h
    · simp only [List.mem_singleton] at h; subst h; rfl
    · simp at h
  · split at h
    · simp only [List.mem_singleton] at h; subst h; rfl
    · simp at h

/-- Every notification emitted by the probe loop is about a configured
URL. -/
theorem probePhase_notif_mem (health : String → Bool) :
    ∀ (urls : List String) (t : Table) (n : Notif),
      n ∈ (probePhase health urls t).2 → Notif.url n ∈ urls := by
  intro urls
  induction urls with
  | nil => intro t n h; simp [probePhase] at h
  | cons a rest ih =>
    intro t n h
    simp only [probePhase, List.mem_append] at h
    rcases h with h | h
    · have : n ∈ (applyProbe a (health a)
          ((Table.find? (Table.setdefault t a freshState) a).getD freshState)).2 := by
        simpa [probeOne] using h
      rw [mem_applyProbe_url this]
      exact List.mem_cons_self a rest
    · exact List.mem_cons_of_mem _ (ih _ n h)

/-- Sending through a disabled notification gate accumulates nothing. -/
theorem foldl_notify_none (ns : List Notif) (acc : List String) :
    ns.foldl (fun acc n => acc ++ notify_status_change none n) acc = acc := by
  induction ns generalizing acc with
  | nil => rfl
  | cons n rest ih =>
    simp only [List.foldl_cons]
    rw [show notify_status_change none n = [] from rfl, List.append_nil]
    exact ih acc

/-- The body-inspection part of `check_health` ends in `True` on every
path, so an in-range response is always classified healthy. -/
theorem check_health_response_true (loads : String → Option Json) {st : Int}
    (body : String) (h : 200 ≤ st ∧ st < 400) :
    check_health loads (ProbeResult.response st body) = true := by
  simp only [check_health]
  rw [if_neg (not_not_intro h)]
  split
  · rfl
  · split
    · split <;> rfl
    · rfl

/-! ## Claim C1 -/

/-- Claim C1 as stated is false: the state with status Up and 2 recorded
consecutive failures is reachable from a fresh endpoint (via one success
and two failures), yet from it 2 further consecutive failed probes do
not leave the status Up — the very next failure reaches the threshold,
flips the status to Down and emits a DOWN notification. -/
theorem c1_debounce_cex :
    runProbes "u" [true, false, false] freshState =
      ({ is_up := some true, fail_count := 2 }, []) ∧
    (runProbes "u" [false, false] { is_up := some true, fail_count := 2 }).1.is_up
      = some false ∧
    (runProbes "u" [false, false] { is_up := some true, fail_count := 2 }).2
      = [ Notif.down "u" ] := by
  decide

/-- Claim C1, amended: for an endpoint whose status is Up with zero
recorded consecutive failures, 2 consecutive failed probes leave the
status Up with no notification; the 3rd flips it to Down with exactly
one DOWN notification; a 4th failed probe emits no further
notification. -/
theorem c1_debounce_amended (u : String) :
    runProbes u [false, false] { is_up := some true, fail_count := 0 } =
      ({ is_up := some true, fail_count := 2 }, []) ∧
    runProbes u [false, false, false] { is_up := some true, fail_count := 0 } =
      ({ is_up := some false, fail_count := 3 }, [ Notif.down u ]) ∧
    runProbes u [false, false, false, false] { is_up := some true, fail_count := 0 } =
      ({ is_up := some false, fail_count := 4 }, [ Notif.down u ]) :=
  ⟨rfl, rfl, rfl⟩

/-! ## Claim C2 -/

/-- Claim C2: starting from a fresh endpoint, the probe results success,
success, failure, failure, failure, success over six cycles emit exactly
one DOWN notification after cycle 5 and one UP notification after cycle
6, and nothing else — in particular the first success and the recovery
cycle together yield exactly two notifications in total. -/
theorem c2_six_cycle_scenario :
    runCycles [ "https://a.test" ] [true, true, false, false, false, true] [] =
      [ [], [], [], [],
        [ Notif.down "https://a.test" ], [ Notif.up "https://a.test" ] ] := by
  decide

/-! ## Claim C3 -/

/-- Claim C3 as stated is false: loading a durable configuration whose
interval is 5 neither rejects it nor coerces it to the default 300 — the
read path returns interval 5, which is below `MIN_INTERVAL`. -/
theorem c3_interval_cex :
    get_urls_and_interval lowIntervalStore = Except.ok ([], 5) ∧
    jdictFind (load_config lowIntervalStore) "interval" = some (Json.num 5) ∧
    (5 : Int) < MIN_INTERVAL :=
  ⟨rfl, rfl, by decide⟩

/-- Claim C3, amended: the set path enforces the bound (`set_interval`
rejects any parsed value below `MIN_INTERVAL` and leaves the stored
configuration unchanged) and the scheduler clamps its sleep to
`max(MIN_INTERVAL, interval)`, which is always at least 30; but loading
performs no interval validation, so a stored interval below 30 is
returned as-is rather than rejected or coerced to the default. -/
theorem c3_interval_amended :
    (∀ (cfg : Config) (s : String) (n : Int),
        pyIntOfString s = some n → n < MIN_INTERVAL →
          set_interval cfg s = (cfg, Reply.intervalTooLow)) ∧
    (∀ i : Int, MIN_INTERVAL ≤ sleepSeconds i) ∧
    get_urls_and_interval lowIntervalStore = Except.ok ([], 5) := by
  refine ⟨?_, ?_, rfl⟩
  · intro cfg s n hn hlt
    simp [set_interval, hn, hlt]
  · intro i
    exact le_max_left _ _

/-- Witness for the amended Claim C3 theorem at concrete inputs. -/
theorem c3_interval_amended_witness :
    set_interval default_config "10" = (default_config, Reply.intervalTooLow) ∧
    MIN_INTERVAL ≤ sleepSeconds 5 :=
  ⟨c3_interval_amended.1 default_config "10" 10 (by decide) (by decide),
   c3_interval_amended.2.1 5⟩

/-! ## Claim C4 -/

/-- Claim C4 as stated is false: for the well-formed JSON dict whose
`interval` field holds the string "abc" (wrongly-typed JSON), the read
operation `get_urls_and_interval` raises `ValueError` from the unguarded
`int()` coercion instead of returning a configuration value, and
`load_config` returns the stored dict unaltered rather than the
default. -/
theorem c4_read_cex :
    get_urls_and_interval badTypedStore = Except.error PyErr.valueError ∧
    jdictFind (load_config badTypedStore) "interval" = some (Json.str "abc") :=
  ⟨rfl, rfl⟩

/-- Claim C4, amended: `load_config` itself never raises and returns
exactly the default dict whenever the store is missing, unreadable,
malformed, or holds non-dict JSON, and on those stores the full read
path returns the default endpoints and interval; but the read-through
operation `get_urls_and_interval` applies unguarded `list()`/`int()`
coercions, so it raises when a well-formed stored dict holds a field of
an unconvertible type. -/
theorem c4_read_amended :
    (∀ s : Store, Store.isCorruptOrMissing s = true →
        load_config s = default_cfg_json) ∧
    (∀ s : Store, Store.isCorruptOrMissing s = true →
        get_urls_and_interval s = Except.ok ([], DEFAULT_INTERVAL)) ∧
    get_urls_and_interval badTypedStore = Except.error PyErr.valueError := by
  refine ⟨load_config_of_corrupt, ?_, rfl⟩
  intro s h
  unfold get_urls_and_interval
  rw [load_config_of_corrupt s h]
  rfl

/-- Witness for the amended Claim C4 theorem at concrete stores. -/
theorem c4_read_amended_witness :
    load_config Store.missing = default_cfg_json ∧
    get_urls_and_interval Store.malformed = Except.ok ([], DEFAULT_INTERVAL) :=
  ⟨c4_read_amended.1 Store.missing rfl, c4_read_amended.2.1 Store.malformed rfl⟩

/-! ## Claim C5 -/

/-- Claim C5: along every sequence of add/remove commands from the
default configuration the stored URL list stays duplicate-free; adding a
URL already in the list replies "already in list" and leaves the
configuration unchanged; removing a URL not in the list replies "not
found" and leaves the configuration unchanged. -/
theorem c5_config_invariants :
    (∀ cmds : List Cmd, ((applyCmds cmds).urls).Nodup) ∧
    (∀ (cfg : Config) (u : String), u ∈ cfg.urls →
        add_url cfg u = (cfg, Reply.duplicate)) ∧
    (∀ (cfg : Config) (u : String), u ∉ cfg.urls →
        remove_url cfg u = (cfg, Reply.notFound)) := by
  refine ⟨?_, ?_, ?_⟩
  · intro cmds
    exact urls_nodup_foldl cmds default_config (by simp [default_config])
  · intro cfg u h
    simp [add_url, h]
  · intro cfg u h
    simp [remove_url, h]

/-- Witness for the Claim C5 theorem at concrete inputs. -/
theorem c5_config_invariants_witness :
    ((applyCmds [ Cmd.add "x", Cmd.add "x", Cmd.remove "y" ]).urls).Nodup ∧
    add_url { urls := [ "x" ], interval := 300 } "x"
      = ({ urls := [ "x" ], interval := 300 }, Reply.duplicate) ∧
    remove_url default_config "y" = (default_config, Reply.notFound) :=
  ⟨c5_config_invariants.1 _,
   c5_config_invariants.2.1 { urls := [ "x" ], interval := 300 } "x" (by decide),
   c5_config_invariants.2.2 default_config "y" (by decide)⟩

/-! ## Claim C6 -/

/-- Claim C6: `set_interval` persists a parsed integer argument `n` as
the new interval when `n ≥ 30`; when `n < 30` it replies with the
minimum-interval rejection and leaves the interval unchanged; and for an
argument that does not parse as an integer it replies with the
integer rejection and leaves the interval unchanged. -/
theorem c6_set_interval_contract (cfg : Config) (s : String) :
    (∀ n : Int, pyIntOfString s = some n →
        ((MIN_INTERVAL ≤ n →
            set_interval cfg s = ({ cfg with interval := n }, Reply.intervalSet n)) ∧
          (n < MIN_INTERVAL →
            set_interval cfg s = (cfg, Reply.intervalTooLow)))) ∧
    (pyIntOfString s = none → set_interval cfg s = (cfg, Reply.notAnInteger)) := by
  constructor
  · intro n hn
    constructor
    · intro hge
      simp [set_interval, hn, not_lt.mpr hge]
    · intro hlt
      simp [set_interval, hn, hlt]
  · intro hn
    simp [set_interval, hn]

/-- Witness for the Claim C6 theorem at concrete arguments. -/
theorem c6_set_interval_witness :
    set_interval default_config "45"
      = ({ default_config with interval := 45 }, Reply.intervalSet 45) ∧
    set_interval default_config "10" = (default_config, Reply.intervalTooLow) ∧
    set_interval default_config "abc" = (default_config, Reply.notAnInteger) :=
  ⟨((c6_set_interval_contract default_config "45").1 45 (by decide)).1 (by decide),
   ((c6_set_interval_contract default_config "10").1 10 (by decide)).2 (by decide),
   (c6_set_interval_contract default_config "abc").2 (by decide)⟩

/-! ## Claim C7 -/

/-- Claim C7: for every probe outcome and every behaviour of the JSON
body parser, `check_health` classifies the endpoint healthy exactly when
the request completed at transport level with an HTTP status in
[200, 400); the response body never turns such a passing response into a
failure, and a transport failure or out-of-range status is always
unhealthy. -/
theorem c7_check_health_iff (loads : String → Option Json) (r : ProbeResult) :
    check_health loads r = true ↔
      ∃ status body, r = ProbeResult.response status body ∧
        200 ≤ status ∧ status < 400 := by
  cases r with
  | failure =>
    simp [check_health]
  | response st body =>
    constructor
    · intro h
      by_cases hr : 200 ≤ st ∧ st < 400
      · exact ⟨st, body, rfl, hr⟩
      · rw [check_health, if_pos hr] at h
        exact absurd h (by simp)
    · rintro ⟨st', body', heq, h1, h2⟩
      rw [heq]
      exact check_health_response_true loads body' ⟨h1, h2⟩

/-! ## Claim C8 -/

/-- Claim C8 as stated is false: with configured URLs `["a"]` and a
stale table entry for the removed endpoint "b", the table handed to the
probe loop (the output of the ensure loop, by the definition of
`async_ping_cycle`) still contains "b" — stale entries are not deleted
at the start of the cycle before probing; they are only gone from the
table the cycle returns. -/
theorem c8_reconcile_cex :
    Table.find? (ensurePhase [ "a" ] [ ("b", { is_up := some true, fail_count := 0 }) ]) "b"
      = some { is_up := some true, fail_count := 0 } ∧
    Table.find?
        (async_ping_cycle (fun _ => true) [ "a" ]
          [ ("b", { is_up := some true, fail_count := 0 }) ]).1 "b"
      = none := by
  decide

/-- Claim C8, amended: entries for endpoints no longer configured are
deleted at the end of each cycle, after all probing — the probe loop
still sees them (the ensure loop deletes nothing) — while missing
entries are lazily created before probing, and no notification is ever
emitted for an endpoint outside the configured list. -/
theorem c8_reconcile_amended (health : String → Bool) (urls : List String)
    (t : Table) (u : String) :
    (u ∉ urls → Table.find? (async_ping_cycle health urls t).1 u = none) ∧
    ((Table.find? t u).isSome → (Table.find? (ensurePhase urls t) u).isSome) ∧
    (u ∈ urls → (Table.find? (ensurePhase urls t) u).isSome) ∧
    (∀ n ∈ (async_ping_cycle health urls t).2, Notif.url n ∈ urls) := by
  refine ⟨?_, ?_, ?_, ?_⟩
  · intro h
    exact find?_prune_of_not_mem h _
  · intro h
    exact find?_ensure_isSome urls h
  · intro h
    exact find?_ensure_mem urls h
  · intro n h
    exact probePhase_notif_mem health urls _ n h

/-- Witness for the amended Claim C8 theorem at concrete inputs. -/
theorem c8_reconcile_witness :
    Table.find? (async_ping_cycle (fun _ => true) [ "a" ] [ ("b", freshState) ]).1 "b"
      = none ∧
    (Table.find? (ensurePhase [ "a" ] [ ("b", freshState) ]) "b").isSome ∧
    (Table.find? (ensurePhase [ "a" ] [ ("b", freshState) ]) "a").isSome ∧
    Notif.url (Notif.up "a") ∈ [ "a" ] :=
  ⟨(c8_reconcile_amended (fun _ => true) [ "a" ] [ ("b", freshState) ] "b").1
     (by decide),
   (c8_reconcile_amended (fun _ => true) [ "a" ] [ ("b", freshState) ] "b").2.1
     (by decide),
   (c8_reconcile_amended (fun _ => true) [ "a" ] [ ("b", freshState) ] "a").2.2.1
     (by decide),
   (c8_reconcile_amended (fun _ => true) [ "a" ]
       [ ("a", { is_up := some false, fail_count := 0 }) ] "a").2.2.2
     (Notif.up "a") (by decide)⟩

/-! ## Claim C9 -/

/-- Claim C9 as stated is false: interleaving two add commands for "x"
and "y" (both read the URL list before either writes) makes both
handlers commit a write, yet the final stored list is `["y"]` — the
committed addition of "x" is lost, so the read-modify-write of the add
handler is not one atomic step. -/
theorem c9_atomicity_cex :
    (runSched (initSys "x" "y") [false, true, false, true]).t0.pc = AddPc.done true ∧
    (runSched (initSys "x" "y") [false, true, false, true]).t1.pc = AddPc.done true ∧
    (runSched (initSys "x" "y") [false, true, false, true]).cfg.urls = [ "y" ] := by
  decide

/-- Claim C9, amended: only the single `update_config` call is atomic
under the lock; the add handler reads the list in one lock acquisition
and writes it in another, so while serialized executions of two add
commands (in either order) store both URLs, the interleaved execution in
which both handlers read before either writes loses the first committed
addition. -/
theorem c9_atomicity_amended :
    (runSched (initSys "x" "y") [false, false, true, true]).cfg.urls = [ "x", "y" ] ∧
    (runSched (initSys "x" "y") [true, true, false, false]).cfg.urls = [ "y", "x" ] ∧
    (runSched (initSys "x" "y") [false, true, false, true]).cfg.urls = [ "y" ] := by
  decide

/-! ## Claim C10 -/

/-- Claim C10: with no allow-listed chat identity configured the
notification operation sends nothing at all — every cycle's list of
delivered messages is empty — while the health-state table after the
cycle is exactly the table produced when an identity is configured. -/
theorem c10_no_allowed_chat (health : String → Bool) (urls : List String) (t : Table) :
    (∀ n : Notif, notify_status_change none n = []) ∧
    (cycleSends none health urls t).2 = [] ∧
    (cycleSends none health urls t).1 = (cycleSends (some "42") health urls t).1 := by
  refine ⟨fun n => rfl, ?_, rfl⟩
  simp only [cycleSends]
  exact foldl_notify_none _ _

end UrlPing
